import Mathlib

/-!
Verification of the schema-reconciliation and prediction pipeline of the
SpaceApps exoplanet backend.  The definitions below are a shallow embedding
of the Python source:

  * `backend/app/api/analysis.py` — column alias/keyword mapping,
    per-row derivations, `safe_float` coercion, `map_row_to_features`,
    `detect_model_type`, `dummy_prediction`, `predict_batch`;
  * `backend/app/api/dashboard.py` — `normalize_disp`;
  * `backend/app/utils/csv_mapper.py` — `detect_mission_type`;
  * `modelo_final/data_loader.py` — disposition preprocessing of
    `preprocesar_telescopio`.

Python floats are idealised as exact rationals plus explicit `nan` /
infinity markers; pandas cells are an inductive `Cell` type.  The one
genuinely real-valued computation (the transit-duration estimate, which
uses pi and a 2/3 real power) lives in `ℝ`.
-/

namespace Exo

/-- A Python float value: NaN, the two infinities, or a finite value
(idealised as an exact rational). -/
inductive PyNum where
  | nan
  | inf
  | ninf
  | num (q : ℚ)
deriving DecidableEq, Repr

/-- One pandas cell of a row: absent/None, float NaN, a finite numeric
value, or a raw string. -/
inductive Cell where
  | none
  | nan
  | num (q : ℚ)
  | str (s : String)
deriving DecidableEq, Repr

/-- A row of a parsed CSV: association list from column name to cell. -/
abbrev Row := List (String × Cell)

/-- Python `row.get(k)` — returns the cell, or `Cell.none` when the key is absent
(Python returns `None`; an absent key and a present `None` behave the same
in every consumer below). -/
def rowGet (r : Row) (k : String) : Cell :=
  match r.find? (fun p => p.1 == k) with
  | some p => p.2
  | .none => Cell.none

/-- Python `row.get(k, d)` — the cell when the key is present, else the default. -/
def rowGetD (r : Row) (k : String) (d : Cell) : Cell :=
  match r.find? (fun p => p.1 == k) with
  | some p => p.2
  | .none => d

/-- Model of `pd.notna` on a cell: false exactly on missing values and NaN. -/
def notna : Cell → Bool
  | Cell.none => false
  | Cell.nan => false
  | _ => true

/-- The missing-value test of `safe_float`:
`val is None or val == '' or (isinstance(val, float) and np.isnan(val))`. -/
def isMissingCell : Cell → Bool
  | Cell.none => true
  | Cell.nan => true
  | Cell.str "" => true
  | _ => false

/-! ### Character-level string utilities

Core `String` functions such as `toLower`, `trim` and `splitOn` are
implemented with well-founded recursion and do not reduce inside the
kernel, so the embedding re-implements the few it needs structurally over
`List Char` (ASCII case folding suffices for the column names and catalog
codes of this repository). -/

/-- ASCII lower-casing of one character. -/
def lowerChar (c : Char) : Char :=
  if 65 ≤ c.toNat ∧ c.toNat ≤ 90 then Char.ofNat (c.toNat + 32) else c

/-- ASCII `str.lower()`. -/
def lowerStr (s : String) : String :=
  ⟨s.data.map lowerChar⟩

/-- Whitespace characters stripped by Python `str.strip()`. -/
def isSpaceChar (c : Char) : Bool :=
  c = ' ' ∨ c = '\t' ∨ c = '\n' ∨ c = '\r' ∨ c.toNat = 11 ∨ c.toNat = 12

/-- Python `str.strip()` on a character list. -/
def trimChars (cs : List Char) : List Char :=
  ((cs.dropWhile isSpaceChar).reverse.dropWhile isSpaceChar).reverse

/-- Split on a single separator character (like `str.split(sep)`). -/
def splitOnChar (sep : Char) : List Char → List (List Char)
  | [] => [[]]
  | c :: rest =>
    match splitOnChar sep rest with
    | [] => [[]]
    | g :: gs => if c = sep then [] :: g :: gs else (c :: g) :: gs

/-- Peel a leading sign: returns (isNegative, rest). -/
def splitSignChars : List Char → Bool × List Char
  | '-' :: rest => (true, rest)
  | '+' :: rest => (false, rest)
  | cs => (false, cs)

/-! ### Kernel-reducible rational arithmetic

The arithmetic operations of `Rat` (`Rat.mul`, `Rat.div`, `Rat.add`,
`Rat.inv`) do not reduce inside the kernel, while `mkRat` and the field
projections do.  The computable pipeline therefore builds its rationals
through the following helpers, which are proved equal to the ordinary
field operations (`qMul_eq`, `qDiv_eq`, `qNeg_eq` below) so that the
claim statements can be phrased over `*`, `/` and `-`. -/

/-- Multiplication of rationals via `mkRat` (equal to `a * b`). -/
def qMul (a b : ℚ) : ℚ := mkRat (a.num * b.num) (a.den * b.den)

/-- Division of rationals via `mkRat` (equal to `a / b`, with the
`b = 0` case giving `0` exactly as Mathlib division does). -/
def qDiv (a b : ℚ) : ℚ := mkRat (a.num * b.num.sign * b.den) (a.den * b.num.natAbs)

/-- Negation of a rational via `mkRat` (equal to `-a`). -/
def qNeg (a : ℚ) : ℚ := mkRat (-a.num) a.den

/-! ### Parsing strings as Python floats -/

/-- Digit string to natural number. -/
def digitsVal (cs : List Char) : ℕ :=
  cs.foldl (fun a c => a * 10 + (c.toNat - 48)) 0

/-- Unsigned decimal mantissa: `123`, `1.5`, `.5`, `5.`; the value
`int + frac / 10^len` is produced as the single fraction
`(int * 10^len + frac) / 10^len`. -/
def parseUnsigned (cs : List Char) : Option ℚ :=
  match splitOnChar '.' cs with
  | [i] =>
    if !i.isEmpty && i.all Char.isDigit then some (mkRat (digitsVal i) 1)
    else Option.none
  | [i, f] =>
    if (!i.isEmpty || !f.isEmpty) && i.all Char.isDigit && f.all Char.isDigit then
      some (mkRat (digitsVal i * 10 ^ f.length + digitsVal f) (10 ^ f.length))
    else Option.none
  | _ => Option.none

/-- Compute `q * 10^ev` for an integer exponent. -/
def applyExp (q : ℚ) (ev : ℤ) : ℚ :=
  if 0 ≤ ev then qMul q (mkRat (10 ^ ev.toNat) 1)
  else qMul q (mkRat 1 (10 ^ (-ev).toNat))

/-- Signed decimal with optional exponent (input already lower-cased). -/
def parseDecimal (cs : List Char) : Option ℚ :=
  let sg := splitSignChars cs
  let core : Option ℚ :=
    match splitOnChar 'e' sg.2 with
    | [m] => parseUnsigned m
    | [m, e] =>
      match parseUnsigned m with
      | some mq =>
        let esg := splitSignChars e
        if !esg.2.isEmpty && esg.2.all Char.isDigit then
          let ev : ℤ := if esg.1 then -((digitsVal esg.2 : ℤ)) else (digitsVal esg.2 : ℤ)
          some (applyExp mq ev)
        else Option.none
      | Option.none => Option.none
    | _ => Option.none
  core.map (fun q => if sg.1 then qNeg q else q)

/-- Python `float(s)`: strips whitespace, accepts decimal literals with
exponent and the special words nan/inf/infinity (case-insensitive).
(Underscore digit separators of Python literals are not modelled.) -/
def parseFloat (s : String) : Option PyNum :=
  let t : String := ⟨(trimChars s.data).map lowerChar⟩
  if t = "nan" || t = "+nan" || t = "-nan" then some PyNum.nan
  else if t = "inf" || t = "+inf" || t = "infinity" || t = "+infinity" then some PyNum.inf
  else if t = "-inf" || t = "-infinity" then some PyNum.ninf
  else (parseDecimal t.data).map PyNum.num

/-- Python `float(val)` on a present cell, as used by `safe_float` (the cell has
already passed the missing-value test there, so None is unreachable and
modelled as failure). -/
def coerceFloat : Cell → Option PyNum
  | Cell.none => Option.none
  | Cell.nan => some PyNum.nan
  | Cell.num q => some (PyNum.num q)
  | Cell.str s => parseFloat s

/-- Python `float(str(cell).strip())` as used by `get_val` of
`map_row_to_features`: numbers round-trip, float NaN prints as `nan` and
parses back to NaN, strings are parsed, `None` prints as `None` and fails. -/
def floatOfCellStr : Cell → Option PyNum
  | Cell.none => Option.none
  | Cell.nan => some PyNum.nan
  | Cell.num q => some (PyNum.num q)
  | Cell.str s => parseFloat s

/-- Model of `pd.to_numeric(cell, errors='coerce')` followed by the source's
`pd.isna`/`np.isfinite` guards: unparseable strings and NaN give `none`;
IEEE infinities are also folded into `none` here because every consumer in
the source discards non-finite results immediately afterwards. -/
def toNumericCoerce : Cell → Option ℚ
  | Cell.num q => some q
  | Cell.str s =>
    match parseFloat s with
    | some (PyNum.num q) => some q
    | _ => Option.none
  | _ => Option.none

/-! ### JSON-safe snapshots (`make_json_safe` of `safe_float`) -/

/-- A JSON value as produced by `make_json_safe`: NaN/None become null,
numbers and strings survive. -/
inductive JsonVal where
  | jnull
  | jnum (q : ℚ)
  | jstr (s : String)
deriving DecidableEq, Repr

/-- Model of `make_json_safe` on one cell. -/
def jsonSafeCell : Cell → JsonVal
  | Cell.none => JsonVal.jnull
  | Cell.nan => JsonVal.jnull
  | Cell.num q => JsonVal.jnum q
  | Cell.str s => JsonVal.jstr s

/-- Model of `make_json_safe(row.to_dict())`. -/
def jsonSafeRow (r : Row) : List (String × JsonVal) :=
  r.map (fun p => (p.1, jsonSafeCell p.2))

/-! ### `map_row_to_features` (analysis.py lines 786-814) -/

/-- The canonical feature dictionary produced by `map_row_to_features`. -/
structure Features where
  orbital_period : PyNum
  transit_duration : PyNum
  transit_depth : PyNum
  stellar_radius : PyNum
  stellar_mass : PyNum
  stellar_temperature : PyNum
deriving DecidableEq, Repr

/-- The inner `get_val` of `map_row_to_features`: first key whose cell is
present and not None/'' is coerced with `float(str(v).strip())`; a present
value that fails to coerce returns the default immediately (the `except`
branch), and exhausting the keys returns the default. -/
def get_val (row : Row) (keys : List String) (dflt : ℚ) : PyNum :=
  match keys with
  | [] => PyNum.num dflt
  | k :: rest =>
    match rowGet row k with
    | Cell.none => get_val row rest dflt
    | Cell.str "" => get_val row rest dflt
    | c =>
      match floatOfCellStr c with
      | some v => v
      | Option.none => PyNum.num dflt

/-- The raw depth value `get_val(['transit_depth','koi_depth','depth'])`
before the ppm test. -/
def rawDepthVal (row : Row) : PyNum :=
  get_val row ["transit_depth", "koi_depth", "depth"] 0

/-- The source line `if depth > 1.0: depth = depth / 1e6` — the single ppm-to-fraction
adjustment of `map_row_to_features`.  NaN compares false and is kept;
+inf compares true and stays +inf after division. -/
def ppmAdjust : PyNum → PyNum
  | PyNum.num d => if 1 < d then PyNum.num (qDiv d 1000000) else PyNum.num d
  | PyNum.inf => PyNum.inf
  | v => v

/-- The mapper `map_row_to_features(row)`. -/
def map_row_to_features (row : Row) : Features :=
  { orbital_period := get_val row ["orbital_period", "koi_period", "period", "kep_period"] 0
    transit_duration := get_val row ["transit_duration", "koi_duration", "duration"] 0
    transit_depth := ppmAdjust (rawDepthVal row)
    stellar_radius :=
      get_val row ["stellar_radius", "koi_srad", "srad", "stellar_radius_rsun", "koi_srad_err1"] 0
    stellar_mass := get_val row ["stellar_mass", "koi_smass", "smass"] 1
    stellar_temperature := get_val row ["stellar_temperature", "koi_steff", "teff"] 5778 }

/-! ### `dummy_prediction` and `predict_batch` -/

/-- Earth radius in solar radii (0.009155), as hard-coded in the source. -/
def R_EARTH_TO_R_SUN : ℚ := mkRat 9155 1000000

/-- Solar radius in astronomical units (0.00465047), as hard-coded in
the source. -/
def R_SUN_TO_AU : ℚ := mkRat 465047 100000000

/-- The planet-radius input of `compute_transit_depth_from_row`:
`pl_rade` (Earth radii) first, else `pl_radj * 11.209`. -/
def depthPlanetRadius (r : Row) : Option ℚ :=
  if notna (rowGet r "pl_rade") then toNumericCoerce (rowGet r "pl_rade")
  else if notna (rowGet r "pl_radj") then
    (toNumericCoerce (rowGet r "pl_radj")).map (fun q => qMul q (mkRat 11209 1000))
  else Option.none

/-- The stellar-radius input of `compute_transit_depth_from_row`:
`stellar_radius` first, else `st_rad`. -/
def depthStellarRadius (r : Row) : Option ℚ :=
  if notna (rowGet r "stellar_radius") then toNumericCoerce (rowGet r "stellar_radius")
  else if notna (rowGet r "st_rad") then toNumericCoerce (rowGet r "st_rad")
  else Option.none

/-- The derivation `compute_transit_depth_from_row(r)`: depth fraction `(Rp/Rs)^2` with
Rp converted to solar radii; missing/unparseable inputs and a zero stellar
radius give `none` (the source's `isfinite` guard is vacuous over `ℚ`). -/
def compute_transit_depth_from_row (r : Row) : Option ℚ :=
  match depthPlanetRadius r, depthStellarRadius r with
  | some p, some s =>
    if s = 0 then Option.none
    else some (qMul (qDiv (qMul p R_EARTH_TO_R_SUN) s) (qDiv (qMul p R_EARTH_TO_R_SUN) s))
  | _, _ => Option.none

/-- First cell among `keys` that is present and notna (the search loops of
`compute_transit_duration_from_row`). -/
def selFirst (r : Row) (keys : List String) : Option Cell :=
  keys.findSome? (fun k =>
    let c := rowGet r k
    if notna c then some c else Option.none)

/-- Orbital-period input of `compute_transit_duration_from_row` (days);
`none` when no key is usable or the found cell fails numeric coercion. -/
def durationPeriod (r : Row) : Option ℚ :=
  match selFirst r ["orbital_period", "pl_orbper", "period", "kep_period", "koi_period"] with
  | some c => toNumericCoerce c
  | Option.none => Option.none

/-- Stellar-radius input of `compute_transit_duration_from_row`. -/
def durationStellar (r : Row) : Option ℚ :=
  match selFirst r ["stellar_radius", "st_rad", "koi_srad"] with
  | some c => toNumericCoerce c
  | Option.none => Option.none

/-- Semi-major-axis input: `some (some a)` for a usable numeric value,
`some none` for a found-but-unparseable cell (NaN after coercion) and
`none` when no key is present — both of the latter fall back to the
Kepler estimate, as does a literal zero. -/
def durationSma (r : Row) : Option (Option ℚ) :=
  (selFirst r ["pl_orbsmax", "pl_orbsmax", "a"]).map toNumericCoerce

/-- The Kepler-third-law semi-major-axis estimate of the source:
`a(AU) = (P_days / 365.25) ** (2/3)` assuming a one-solar-mass star. -/
noncomputable def keplerSemiMajorAxis (P : ℚ) : ℝ :=
  ((P : ℝ) / 365.25) ^ ((2 : ℝ) / 3)

/-- The formula `duration_hours = (P / pi) * (Rs_AU / a) * 24`. -/
noncomputable def durationFormula (P Rs : ℚ) (a : ℝ) : ℝ :=
  ((P : ℝ) / Real.pi) * (((Rs : ℝ) * ((R_SUN_TO_AU : ℚ) : ℝ)) / a) * 24

/-- The estimate branch: negative periods make the Python `**` raise
(caught, giving None); a zero period gives a zero estimate, rejected by
the `a == 0` guard. -/
noncomputable def durationEstimate (P Rs : ℚ) : Option ℝ :=
  if P ≤ 0 then Option.none
  else some (durationFormula P Rs (keplerSemiMajorAxis P))

/-- The derivation `compute_transit_duration_from_row(r)` (analysis.py lines 391-434). -/
noncomputable def compute_transit_duration_from_row (r : Row) : Option ℝ :=
  match durationPeriod r with
  | Option.none => Option.none
  | some P =>
    match durationStellar r with
    | Option.none => Option.none
    | some Rs =>
      if Rs = 0 then Option.none
      else
        match durationSma r with
        | some (some a) =>
          if a = 0 then durationEstimate P Rs
          else some (durationFormula P Rs ((a : ℚ) : ℝ))
        | _ => durationEstimate P Rs

/-! ### `safe_float` (analysis.py lines 436-497) -/

/-- A value as returned by `safe_float` (a Python float, possibly NaN or
an infinity, with finite values living in `ℝ` because derived transit
durations are real-valued). -/
inductive RVal where
  | nan
  | inf
  | ninf
  | num (x : ℝ)

/-- Lift a parsed Python float into `RVal`. -/
noncomputable def pyNumToRVal : PyNum → RVal
  | PyNum.nan => RVal.nan
  | PyNum.inf => RVal.inf
  | PyNum.ninf => RVal.ninf
  | PyNum.num q => RVal.num ((q : ℚ) : ℝ)

/-- The two structured row-level errors `safe_float` can raise. -/
inductive SFError where
  | missingValue (field : String) (rowSample : List (String × JsonVal))
  | invalidNumber (field : String) (value : JsonVal) (rowSample : List (String × JsonVal))

/-- The coercer `safe_float(val, field_name, default)` closing over `row`:
missing values try the depth/duration derivation (depth first), then the
caller default, then raise `missing_value`; present values are coerced
with `float`, raising `invalid_number` on failure. -/
noncomputable def safe_float (row : Row) (val : Cell) (field : String) (dflt : Option ℚ) :
    Except SFError RVal :=
  if isMissingCell val then
    let derived : Option RVal :=
      if field = "transit_depth" then
        match compute_transit_depth_from_row row with
        | some q => some (RVal.num ((q : ℚ) : ℝ))
        | Option.none => Option.none
      else if field = "transit_duration" then
        match compute_transit_duration_from_row row with
        | some x => some (RVal.num x)
        | Option.none => Option.none
      else Option.none
    match derived with
    | some v => Except.ok v
    | Option.none =>
      match dflt with
      | some d => Except.ok (RVal.num ((d : ℚ) : ℝ))
      | Option.none => Except.error (SFError.missingValue field (jsonSafeRow row))
  else
    match coerceFloat val with
    | some v => Except.ok (pyNumToRVal v)
    | Option.none => Except.error (SFError.invalidNumber field (jsonSafeCell val) (jsonSafeRow row))

/-- The request object built by the upload endpoint (analysis.py lines
499-519) from the first row, field by field through `safe_float`. -/
structure AnalysisRequest where
  orbital_period : RVal
  transit_duration : Option RVal
  transit_depth : Option RVal
  stellar_radius : RVal
  stellar_mass : Option RVal
  stellar_temperature : Option RVal

/-- The request construction of `analyze_uploaded_file` (lines 499-519):
the K2 branch skips duration/depth; every other detected model coerces all
four geometry fields plus the two defaulted stellar fields, in source
argument order, aborting at the first `safe_float` failure. -/
noncomputable def build_analysis_request (modelType : String) (row : Row) :
    Except SFError AnalysisRequest :=
  if modelType = "k2" then do
    let op ← safe_float row (rowGet row "orbital_period") "orbital_period" Option.none
    let sr ← safe_float row (rowGet row "stellar_radius") "stellar_radius" Option.none
    let sm ← safe_float row (rowGetD row "stellar_mass" (Cell.num 1)) "stellar_mass" (some 1)
    let st ← safe_float row (rowGetD row "stellar_temperature" (Cell.num 5778))
      "stellar_temperature" (some 5778)
    Except.ok
      { orbital_period := op, transit_duration := Option.none, transit_depth := Option.none
        stellar_radius := sr, stellar_mass := some sm, stellar_temperature := some st }
  else do
    let op ← safe_float row (rowGet row "orbital_period") "orbital_period" Option.none
    let td ← safe_float row (rowGet row "transit_duration") "transit_duration" Option.none
    let dp ← safe_float row (rowGet row "transit_depth") "transit_depth" Option.none
    let sr ← safe_float row (rowGet row "stellar_radius") "stellar_radius" Option.none
    let sm ← safe_float row (rowGetD row "stellar_mass" (Cell.num 1)) "stellar_mass" (some 1)
    let st ← safe_float row (rowGetD row "stellar_temperature" (Cell.num 5778))
      "stellar_temperature" (some 5778)
    Except.ok
      { orbital_period := op, transit_duration := some td, transit_depth := some dp
        stellar_radius := sr, stellar_mass := some sm, stellar_temperature := some st }

/-! ### Substring matching and the column mappers -/

/-- Containment of one character list as a contiguous segment of another. -/
def containsSeg (p s : List Char) : Bool :=
  (List.range (s.length + 1)).any (fun i => ((s.drop i).take p.length) == p)

/-- Python `pat in s` (substring containment). -/
def strContains (s pat : String) : Bool :=
  containsSeg pat.data s.data

/-- The exact alias table of the upload endpoint (analysis.py lines
135-156), in source order, duplicates included. -/
def alias_map : List (String × List String) :=
  [("orbital_period",
    ["orbital_period", "koi_period", "period", "kep_period", "kepoi_period",
     "pl_orbper", "pl_orbper", "orbper", "pl_orbper"]),
   ("transit_duration",
    ["transit_duration", "koi_duration", "duration", "koi_time0bk",
     "pl_trandurh", "pl_trandur", "trandur", "pl_trandurh", "tranduration"]),
   ("transit_depth",
    ["transit_depth", "koi_depth", "depth", "koi_depth",
     "pl_trandep", "pl_trande", "pl_trandep"]),
   ("stellar_radius",
    ["stellar_radius", "koi_srad", "srad", "koi_srad_err1", "stellar_radius_rsun",
     "st_rad"])]

/-- Build the exact-alias rename map (found column -> canonical name);
`lower_to_col` keeps the last column per lowercase key, and the dict
write `rename_map[found] = canonical` overwrites an earlier claim of the
same column. -/
def build_rename_map (cols : List String) : List (String × String) :=
  alias_map.foldl
    (fun m ckv =>
      match ckv.2.findSome? (fun a => cols.reverse.find? (fun c => lowerStr c == lowerStr a)) with
      | some found => (m.filter (fun p => p.1 ≠ found)) ++ [(found, ckv.1)]
      | Option.none => m)
    []

/-- Model of `df.rename(columns=m)`: every column name that is a key of the map is
replaced; absent keys are no-ops. -/
def applyRename (m : List (String × String)) (cols : List String) : List String :=
  cols.map (fun c =>
    match m.find? (fun p => p.1 == c) with
    | some p => p.2
    | Option.none => c)

/-- The permissive substring keyword table of the upload endpoint
(analysis.py lines 175-181).  The source comment above the
`stellar_radius` entry says planet-radius columns must not satisfy it,
yet the list contains `rad` and `prad`. -/
def keyword_map : List (String × List String) :=
  [("orbital_period", ["orbper", "orb", "period", "per"]),
   ("transit_duration", ["trandur", "duration", "dur", "trandurh", "tran"]),
   ("transit_depth", ["trandep", "depth", "dep"]),
   ("stellar_radius", ["srad", "rad", "st_rad", "prad"])]

/-- First column of the (stale, pre-loop) column list whose lowercase name
contains one of the keywords. -/
def findKeywordCol (cols0 : List String) (keywords : List String) : Option String :=
  cols0.find? (fun c => keywords.any (fun k => strContains (lowerStr c) k))

/-- The substring fallback loop of the upload endpoint (analysis.py lines
183-194): for each canonical name still absent, claim the first matching
column of the pre-loop snapshot and rename it (a rename whose key was
already consumed is a pandas no-op, modelled by the identity map). -/
def keyword_step (cols0 : List String) : List String :=
  keyword_map.foldl
    (fun cols ckw =>
      if ckw.1 ∈ cols then cols
      else
        match findKeywordCol cols0 ckw.2 with
        | some found => cols.map (fun c => if c = found then ckw.1 else c)
        | Option.none => cols)
    cols0

/-! ### Schema classifiers -/

/-- The string `' '.join(lowercased column names)` of `detect_model_type`. -/
def columnsStr : List String → String
  | [] => ""
  | [c] => lowerStr c
  | c :: rest => lowerStr c ++ " " ++ columnsStr rest

/-- The classifier `detect_model_type(df)` (analysis.py lines 579-608): K2 markers with
`tess_mag` absent, then the `tess_mag` marker, then Kepler markers with
`v_mag`/`tess_mag` absent, else the Kepler default. -/
def detect_model_type (cols : List String) : String :=
  let cs := columnsStr cols
  if (["v_mag", "star_mass"].any (fun p => strContains cs p)) && !(strContains cs "tess_mag") then
    "k2"
  else if strContains cs "tess_mag" then "tess"
  else if (["duration", "impact_parameter", "snr"].any (fun p => strContains cs p))
      && !(strContains cs "v_mag") && !(strContains cs "tess_mag") then
    "kepler"
  else "kepler"

/-- The classifier `detect_mission_type(df)` of `CSVExoplanetMapper`
(csv_mapper.py lines 59-91): exact membership tests over the lowered
column set, TESS first, with two common-column fallbacks. -/
def detect_mission_type (cols : List String) : String :=
  let columns := cols.map lowerStr
  if ["toi", "pl_tranmid"].any (fun c => c ∈ columns) then "tess"
  else if ["kepid", "koi_disposition"].any (fun c => c ∈ columns) then "kepler"
  else if ["pl_name", "disposition"].any (fun c => c ∈ columns) then "k2"
  else if "pl_orbper" ∈ columns ∧ "pl_rade" ∈ columns then "tess"
  else if "koi_period" ∈ columns ∧ "koi_prad" ∈ columns then "kepler"
  else "unknown"

/-! ### Upload validation gate (analysis.py lines 276-361) -/

/-- Pandas column-membership test `col in df.columns`, phrased on the
first row of the frame. -/
def hasCol (df : Row) (k : String) : Bool :=
  (df.find? (fun p => p.1 == k)).isSome

/-- The generic-to-specific column copy loop of the upload endpoint: for
each `(generic_col, specific_col)` entry of `column_mapping`, in dict
order, `df[specific_col] = df[generic_col]` runs when the generic column
exists and the specific one does not; pandas appends the new column on
the right and keeps the generic one. -/
def copyColumns (mapping : List (String × String)) (df : Row) : Row :=
  mapping.foldl
    (fun d gs =>
      if hasCol d gs.1 && !(hasCol d gs.2) then d ++ [(gs.2, rowGet d gs.1)] else d)
    df

/-- Python `if 'radius' not in df.columns: df['radius'] = 1.0`. -/
def addDefaultRadius (df : Row) : Row :=
  if hasCol df "radius" then df else df ++ [("radius", Cell.num 1)]

/-- Outcome of the upload endpoint validation and request construction: a
`missing_columns` HTTP 400, a row-coercion HTTP 400 out of `safe_float`,
or the `AnalysisRequest` handed on to `predict_with_model`. -/
inductive UploadOutcome where
  | missingColumns (missing : List String) (modelType : String)
  | rowError (e : SFError)
  | request (req : AnalysisRequest)

/-- The model-specific column mapping, planet-radius default, and
required-columns validation of `analyze_uploaded_file` (analysis.py lines
276-361), followed by the first-row request construction (lines 499-519).
The bulk depth/duration synthesis of lines 226-274 only inserts those
columns when they are absent, so it is the identity on frames already
carrying both and is not repeated here; the input is the post-mapping
first row, standing for the whole frame. -/
noncomputable def validate_and_build_request (df : Row) : UploadOutcome :=
  let mt := detect_model_type (df.map (fun p => p.1))
  let df2 :=
    if mt = "k2" then
      addDefaultRadius (copyColumns
        [("orbital_period", "period"), ("stellar_radius", "star_radius"),
         ("planet_radius", "radius"), ("pl_radius", "radius"), ("pl_rade", "radius")] df)
    else if mt = "tess" then
      addDefaultRadius (copyColumns
        [("orbital_period", "period"), ("transit_duration", "duration"),
         ("transit_depth", "depth"), ("stellar_radius", "star_radius"),
         ("planet_radius", "radius"), ("pl_radius", "radius"), ("pl_rade", "radius")] df)
    else if mt = "kepler" then
      addDefaultRadius (copyColumns
        [("orbital_period", "period"), ("transit_duration", "duration"),
         ("transit_depth", "depth"), ("stellar_radius", "star_radius"),
         ("planet_radius", "radius"), ("pl_radius", "radius"), ("pl_rade", "radius")] df)
    else df
  let required :=
    if mt = "k2" then
      ["period", "radius", "teq", "star_radius", "star_mass", "logg", "insolation",
       "star_teff", "v_mag", "radius_ratio"]
    else if mt = "tess" then
      ["period", "duration", "depth", "radius", "teq", "star_radius", "logg",
       "insolation", "star_teff", "tess_mag", "period_duration_ratio", "transit_snr",
       "depth_duration_ratio", "radius_ratio"]
    else if mt = "kepler" then
      ["period", "duration", "depth", "radius", "teq", "star_radius", "logg",
       "impact_parameter", "insolation", "snr", "period_duration_ratio", "transit_snr",
       "depth_duration_ratio", "radius_ratio"]
    else ["orbital_period", "transit_duration", "transit_depth", "stellar_radius"]
  let missing := required.filter (fun c => !(hasCol df2 c))
  if missing.isEmpty then
    match build_analysis_request mt df2 with
    | Except.ok r => UploadOutcome.request r
    | Except.error e => UploadOutcome.rowError e
  else UploadOutcome.missingColumns missing mt

/-! ### `normalize_disp` (dashboard.py lines 91-111) -/

/-- The disposition normalizer: exact catalog codes first, then substring
fallbacks, else passthrough; the caller feeds it uppercased, stripped
strings with NaN rendered as "NAN". -/
def normalize_disp (s : String) : String :=
  if s = "" ∨ s = "NAN" then ""
  else if s = "CONFIRMED" ∨ s = "CONFIRMED_PLANET" ∨ s = "CP" then "CONFIRMED"
  else if s = "CANDIDATE" ∨ s = "PC" ∨ s = "PC?" then "CANDIDATE"
  else if s = "FALSE POSITIVE" ∨ s = "FALSE_POSITIVE" ∨ s = "FP" then "FALSE POSITIVE"
  else if s = "KP" then "CONFIRMED"
  else if strContains s "FALSE" then "FALSE POSITIVE"
  else if strContains s "CANDID" ∨ s = "PC" then "CANDIDATE"
  else if strContains s "CONFIR" ∨ s = "CP" then "CONFIRMED"
  else s

/-- The normalizer as the specification words it: exact table (including
KP), then the three substring fallbacks alone, else passthrough. -/
def normalizeDispSpec (s : String) : String :=
  if s = "" ∨ s = "NAN" then ""
  else if s = "CONFIRMED" ∨ s = "CONFIRMED_PLANET" ∨ s = "CP" then "CONFIRMED"
  else if s = "CANDIDATE" ∨ s = "PC" ∨ s = "PC?" then "CANDIDATE"
  else if s = "FALSE POSITIVE" ∨ s = "FALSE_POSITIVE" ∨ s = "FP" then "FALSE POSITIVE"
  else if s = "KP" then "CONFIRMED"
  else if strContains s "FALSE" then "FALSE POSITIVE"
  else if strContains s "CANDID" then "CANDIDATE"
  else if strContains s "CONFIR" then "CONFIRMED"
  else s

/-! ### Disposition preprocessing of `preprocesar_telescopio`
(data_loader.py lines 133-164) -/

/-- The source column renamed to `disposition` for each telescope. -/
def dispositionSourceCol (tel : String) : String :=
  if tel = "kepler" then "koi_disposition"
  else if tel = "tess" then "tfopwg_disp"
  else "disposition"

/-- The TESS TFOPWG code replacement dictionary. -/
def tessDispReplace (s : String) : String :=
  if s = "PC" then "CANDIDATE"
  else if s = "CP" then "CONFIRMED"
  else if s = "KP" then "CONFIRMED"
  else if s = "APC" then "CANDIDATE"
  else if s = "FP" then "FALSE POSITIVE"
  else if s = "FA" then "FALSE POSITIVE"
  else s

/-- The per-telescope replacement: Kepler and K2 map the three canonical
labels to themselves (identity), TESS expands its short codes. -/
def dispReplace (tel : String) (s : String) : String :=
  if tel = "tess" then tessDispReplace s else s

/-- The final lambda: any value outside the three canonical labels
becomes CANDIDATE. -/
def finalizeDisp (s : String) : String :=
  if s = "CONFIRMED" ∨ s = "CANDIDATE" ∨ s = "FALSE POSITIVE" then s else "CANDIDATE"

/-- The full disposition column transformation: `fillna('')`, the
per-telescope replace, then the unmapped-to-CANDIDATE lambda. -/
def preprocessDispositionValues (tel : String) (col : List (Option String)) : List String :=
  col.map (fun c => finalizeDisp (dispReplace tel (c.getD "")))

/-- The function `preprocesar_telescopio` restricted to its disposition column: the
table keeps only mapped columns, the telescope's source column is renamed
to `disposition`, and its values are normalised; `none` when the table has
no such column (the function then crashes at its final print, producing no
output table). -/
def preprocesar_disposition (tel : String) (table : List (String × List (Option String))) :
    Option (List String) :=
  (table.find? (fun p => p.1 == dispositionSourceCol tel)).map
    (fun p => preprocessDispositionValues tel p.2)

/-- Some column of the list contains the marker substring after
lower-casing (the set-level reading of `detect_model_type`'s checks on
the space-joined column string). -/
def anyColContains (cols : List String) (pat : String) : Bool :=
  cols.any (fun c => strContains (lowerStr c) pat)

/-- The no-derivation condition of `safe_float`: for `transit_depth` and
`transit_duration` the corresponding per-row derivation yields nothing,
and for any other field no derivation is even attempted. -/
def derivationGivesNone (row : Row) (field : String) : Prop :=
  (field = "transit_depth" → compute_transit_depth_from_row row = Option.none) ∧
  (field = "transit_duration" → compute_transit_duration_from_row row = Option.none)

/-! ## Bridge lemmas: the kernel-reducible rational helpers agree with
the field operations of `ℚ`. -/

/-- The helper `qMul` is multiplication. -/
theorem qMul_eq (a b : ℚ) : qMul a b = a * b := by
  rw [qMul, Rat.mkRat_eq_div]
  push_cast
  rw [← div_mul_div_comm, Rat.num_div_den, Rat.num_div_den]

/-- The helper `qNeg` is negation. -/
theorem qNeg_eq (a : ℚ) : qNeg a = -a := by
  rw [qNeg, Rat.mkRat_eq_div]
  push_cast
  rw [neg_div, Rat.num_div_den]

/-- The helper `qDiv` is division (both give `0` when the divisor is `0`). -/
theorem qDiv_eq (a b : ℚ) : qDiv a b = a / b := by
  rcases eq_or_ne b 0 with hb | hb
  · subst hb
    simp [qDiv, Rat.mkRat_eq_div]
  · have hbn : b.num ≠ 0 := Rat.num_ne_zero.mpr hb
    have hs : b.num.sign ≠ 0 := by
      simpa [Int.sign_eq_zero_iff_zero] using hbn
    have key1 : a.num * b.num.sign * (b.den : ℤ) = a.num * b.den * b.num.sign := by ring
    have key2 : ((a.den * b.num.natAbs : ℕ) : ℤ) = (a.den : ℤ) * b.num * b.num.sign := by
      rcases hn : b.num with n | n
      · rcases n with _ | n
        · exact absurd (by simpa using hn) hbn
        · show ((a.den * (n + 1) : ℕ) : ℤ) = (a.den : ℤ) * (Int.ofNat (n + 1)) * 1
          push_cast [Int.ofNat_eq_natCast]
          ring
      · show ((a.den * (n + 1) : ℕ) : ℤ) = (a.den : ℤ) * Int.negSucc n * (-1)
        rw [Int.negSucc_eq]
        push_cast
        ring
    rw [qDiv, Rat.mkRat_eq_divInt, Rat.div_def', key1, key2, Rat.divInt_mul_right hs]

/-! ## Claim theorems -/

/-- Every output of the unmapped-to-CANDIDATE lambda is one of the three
canonical labels. -/
theorem finalizeDisp_cases (s : String) :
    finalizeDisp s = "CONFIRMED" ∨ finalizeDisp s = "CANDIDATE" ∨
      finalizeDisp s = "FALSE POSITIVE" := by
  unfold finalizeDisp
  split_ifs with h
  · tauto
  · tauto

/-- Claim C3 (code bug): the permissive substring keyword fallback of the
upload endpoint claims planet-radius-only columns as `stellar_radius`.
With `pl_rade` (resp. `koi_prad`, `planet_radius`) as the only radius-like
column, the substring step renames it to `stellar_radius` via the keywords
`rad`/`prad`, even though the source comment forbids exactly this; the
exact-alias step itself claims nothing on these inputs. -/
theorem C3_substring_claims_planet_radius :
    keyword_step ["pl_rade"] = ["stellar_radius"] ∧
    keyword_step ["koi_prad"] = ["stellar_radius"] ∧
    keyword_step ["planet_radius"] = ["stellar_radius"] ∧
    build_rename_map ["pl_rade"] = [] ∧
    build_rename_map ["koi_prad"] = [] ∧
    build_rename_map ["planet_radius"] = [] := by
  decide

/-- Claim C8 (confirmed): `normalize_disp` is a pure total function that
applies the exact catalog-code table first (so `KP` gives `CONFIRMED`),
then the substring fallbacks FALSE/CANDID/CONFIR, else returns the input
unchanged; empty and `NAN` inputs give the empty string.  The extra
`s = "PC"` / `s = "CP"` disjuncts of the source's substring branches are
unreachable (those codes are consumed by the exact table), so the
function coincides with the specification's description on every input. -/
theorem C8_normalize_disp_follows_spec :
    (∀ s : String, normalize_disp s = normalizeDispSpec s) ∧
    normalize_disp "KP" = "CONFIRMED" ∧
    normalize_disp "APC" = "APC" ∧
    normalize_disp "" = "" ∧
    normalize_disp "NAN" = "" := by
  refine ⟨fun s => ?_, by decide, by decide, by decide, by decide⟩
  unfold normalize_disp normalizeDispSpec
  split_ifs <;> first | rfl | tauto

/-- Claim C10 (confirmed): the disposition column produced by
`preprocesar_telescopio` takes values only in
{CONFIRMED, CANDIDATE, FALSE POSITIVE} — every value left outside that
set by the per-telescope code replacement (empty strings from NaN filling
included) is mapped to CANDIDATE. -/
theorem C10_disposition_values_canonical (tel : String)
    (table : List (String × List (Option String))) (out : List String)
    (h : preprocesar_disposition tel table = some out) :
    ∀ v ∈ out, v = "CONFIRMED" ∨ v = "CANDIDATE" ∨ v = "FALSE POSITIVE" := by
  intro v hv
  unfold preprocesar_disposition at h
  rcases Option.map_eq_some'.mp h with ⟨p, _, hout⟩
  subst hout
  rcases List.mem_map.mp hv with ⟨c, _, hc⟩
  subst hc
  exact finalizeDisp_cases _

/-- Witness for C10 at a concrete TESS table with a known code, a NaN
cell and an unknown code. -/
theorem C10_disposition_values_canonical_witness :
    preprocesar_disposition "tess"
        [("tfopwg_disp", [some "KP", Option.none, some "XYZ"])] =
      some ["CONFIRMED", "CANDIDATE", "CANDIDATE"] ∧
    ∀ v ∈ ["CONFIRMED", "CANDIDATE", "CANDIDATE"],
      v = "CONFIRMED" ∨ v = "CANDIDATE" ∨ v = "FALSE POSITIVE" :=
  ⟨by decide,
   C10_disposition_values_canonical "tess"
     [("tfopwg_disp", [some "KP", Option.none, some "XYZ"])]
     ["CONFIRMED", "CANDIDATE", "CANDIDATE"] (by decide)⟩

/-! ### Branch lemmas for `safe_float` (shared by several claims) -/

/-- A present, coercible value is returned as the coerced float. -/
theorem safe_float_present_ok (row : Row) (val : Cell) (field : String)
    (dflt : Option ℚ) (h : isMissingCell val = false) (v : PyNum)
    (hv : coerceFloat val = some v) :
    safe_float row val field dflt = Except.ok (pyNumToRVal v) := by
  simp only [safe_float, h, Bool.false_eq_true, if_false, hv]

/-- A present, non-coercible value raises `invalid_number` with the raw
value and the row snapshot. -/
theorem safe_float_present_invalid (row : Row) (val : Cell) (field : String)
    (dflt : Option ℚ) (h : isMissingCell val = false)
    (hv : coerceFloat val = Option.none) :
    safe_float row val field dflt =
      Except.error (SFError.invalidNumber field (jsonSafeCell val) (jsonSafeRow row)) := by
  simp only [safe_float, h, Bool.false_eq_true, if_false, hv]

/-- A missing `transit_depth` whose per-row derivation succeeds returns
the derived value, whatever the default. -/
theorem safe_float_missing_depth_derived (row : Row) (val : Cell)
    (dflt : Option ℚ) (h : isMissingCell val = true) (q : ℚ)
    (hq : compute_transit_depth_from_row row = some q) :
    safe_float row val "transit_depth" dflt = Except.ok (RVal.num ((q : ℚ) : ℝ)) := by
  simp only [safe_float, h, if_true, hq, if_pos rfl]

/-- A missing `transit_duration` whose per-row derivation succeeds returns
the derived value, whatever the default. -/
theorem safe_float_missing_duration_derived (row : Row) (val : Cell)
    (dflt : Option ℚ) (h : isMissingCell val = true) (x : ℝ)
    (hx : compute_transit_duration_from_row row = some x) :
    safe_float row val "transit_duration" dflt = Except.ok (RVal.num x) := by
  simp only [safe_float, h, if_true, hx,
    show ("transit_duration" = "transit_depth") = False from eq_false (by decide), if_false]

/-- A missing value with no available derivation returns the caller's
default when one was supplied. -/
theorem safe_float_missing_default (row : Row) (val : Cell) (field : String)
    (h : isMissingCell val = true) (hder : derivationGivesNone row field)
    (d : ℚ) :
    safe_float row val field (some d) = Except.ok (RVal.num ((d : ℚ) : ℝ)) := by
  by_cases hf1 : field = "transit_depth"
  · subst hf1
    simp only [safe_float, h, if_true, hder.1 rfl, if_pos rfl]
  · by_cases hf2 : field = "transit_duration"
    · subst hf2
      simp only [safe_float, h, if_true, hder.2 rfl,
        show ("transit_duration" = "transit_depth") = False from eq_false (by decide), if_false,
        if_pos rfl]
    · simp only [safe_float, h, if_true, if_neg hf1, if_neg hf2]

/-- A missing value with no derivation and no default raises
`missing_value` with the field name and the row snapshot. -/
theorem safe_float_missing_error (row : Row) (val : Cell) (field : String)
    (h : isMissingCell val = true) (hder : derivationGivesNone row field) :
    safe_float row val field Option.none =
      Except.error (SFError.missingValue field (jsonSafeRow row)) := by
  by_cases hf1 : field = "transit_depth"
  · subst hf1
    simp only [safe_float, h, if_true, hder.1 rfl, if_pos rfl]
  · by_cases hf2 : field = "transit_duration"
    · subst hf2
      simp only [safe_float, h, if_true, hder.2 rfl,
        show ("transit_duration" = "transit_depth") = False from eq_false (by decide), if_false,
        if_pos rfl]
    · simp only [safe_float, h, if_true, if_neg hf1, if_neg hf2]

/-- Claim C5 (confirmed): the transit-depth derivation returns exactly
`((R_planet * 0.009155) / R_star)^2` for numeric inputs, and a missing
result (`none`, not zero and not an exception) when the stellar radius is
zero or either input is absent or unparseable. -/
theorem C5_depth_derivation_formula (r : Row) :
    (∀ p v, depthPlanetRadius r = some p → depthStellarRadius r = some v → v ≠ 0 →
       compute_transit_depth_from_row r = some ((p * R_EARTH_TO_R_SUN / v) ^ 2)) ∧
    (∀ p, depthPlanetRadius r = some p → depthStellarRadius r = some 0 →
       compute_transit_depth_from_row r = Option.none) ∧
    (depthPlanetRadius r = Option.none → compute_transit_depth_from_row r = Option.none) ∧
    (depthStellarRadius r = Option.none → compute_transit_depth_from_row r = Option.none) := by
  refine ⟨?_, ?_, ?_, ?_⟩
  · intro p v hp hv hv0
    simp only [compute_transit_depth_from_row, hp, hv, if_neg hv0]
    simp only [qMul_eq, qDiv_eq]
    rw [← pow_two]
  · intro p hp hv
    simp [compute_transit_depth_from_row, hp, hv]
  · intro hp
    rcases hv : depthStellarRadius r with _ | v <;>
      simp only [compute_transit_depth_from_row, hp, hv]
  · intro hv
    rcases hp : depthPlanetRadius r with _ | p <;>
      simp only [compute_transit_depth_from_row, hp, hv]

/-- Witness for C5: a row with `pl_rade = 2` Earth radii and
`st_rad = 0.5` solar radii. -/
theorem C5_depth_derivation_formula_witness :
    depthPlanetRadius [("pl_rade", Cell.num 2), ("st_rad", Cell.num (mkRat 1 2))] = some 2 ∧
    depthStellarRadius [("pl_rade", Cell.num 2), ("st_rad", Cell.num (mkRat 1 2))] =
      some (mkRat 1 2) ∧
    (mkRat 1 2 : ℚ) ≠ 0 ∧
    compute_transit_depth_from_row [("pl_rade", Cell.num 2), ("st_rad", Cell.num (mkRat 1 2))] =
      some ((2 * R_EARTH_TO_R_SUN / (mkRat 1 2)) ^ 2) :=
  ⟨by decide, by decide, by decide,
   (C5_depth_derivation_formula _).1 2 (mkRat 1 2) (by decide) (by decide) (by decide)⟩

/-- Claim C7 (confirmed): the `safe_float` coercion policy, in order —
a present coercible value is returned as a float; a missing/empty/NaN
value for `transit_depth` or `transit_duration` first tries the per-row
derivation (even when a default was supplied); a still-missing value
returns the caller default when given; otherwise a `missing_value` error
with the field name and a JSON-safe row snapshot is raised; and a
present non-coercible value raises `invalid_number` with the raw value
and the row snapshot. -/
theorem C7_safe_float_policy (row : Row) (val : Cell) (field : String)
    (dflt : Option ℚ) :
    (isMissingCell val = false → ∀ v, coerceFloat val = some v →
       safe_float row val field dflt = Except.ok (pyNumToRVal v)) ∧
    (isMissingCell val = false → coerceFloat val = Option.none →
       safe_float row val field dflt =
         Except.error (SFError.invalidNumber field (jsonSafeCell val) (jsonSafeRow row))) ∧
    (isMissingCell val = true → ∀ q, compute_transit_depth_from_row row = some q →
       safe_float row val "transit_depth" dflt = Except.ok (RVal.num ((q : ℚ) : ℝ))) ∧
    (isMissingCell val = true → ∀ x, compute_transit_duration_from_row row = some x →
       safe_float row val "transit_duration" dflt = Except.ok (RVal.num x)) ∧
    (isMissingCell val = true → derivationGivesNone row field → ∀ d, dflt = some d →
       safe_float row val field dflt = Except.ok (RVal.num ((d : ℚ) : ℝ))) ∧
    (isMissingCell val = true → derivationGivesNone row field → dflt = Option.none →
       safe_float row val field dflt =
         Except.error (SFError.missingValue field (jsonSafeRow row))) := by
  refine ⟨?_, ?_, ?_, ?_, ?_, ?_⟩
  · intro h v hv
    exact safe_float_present_ok row val field dflt h v hv
  · intro h hv
    exact safe_float_present_invalid row val field dflt h hv
  · intro h q hq
    exact safe_float_missing_depth_derived row val dflt h q hq
  · intro h x hx
    exact safe_float_missing_duration_derived row val dflt h x hx
  · intro h hder d hd
    subst hd
    exact safe_float_missing_default row val field h hder d
  · intro h hder hd
    subst hd
    exact safe_float_missing_error row val field h hder

/-- Witness for C7: a present non-numeric string raises `invalid_number`
carrying the raw value and the JSON-safe snapshot of the row. -/
theorem C7_safe_float_policy_witness :
    isMissingCell (Cell.str "xx") = false ∧
    coerceFloat (Cell.str "xx") = Option.none ∧
    safe_float [("orbital_period", Cell.str "xx")] (Cell.str "xx") "orbital_period"
        Option.none =
      Except.error (SFError.invalidNumber "orbital_period" (JsonVal.jstr "xx")
        [("orbital_period", JsonVal.jstr "xx")]) :=
  ⟨by decide, by decide,
   (C7_safe_float_policy [("orbital_period", Cell.str "xx")] (Cell.str "xx")
      "orbital_period" Option.none).2.1 (by decide) (by decide)⟩

/-- Claim C2 (corrected): in the `safe_float` path (called with no
default for the three geometry fields, and with defaults 1.0 / 5778.0
for the stellar context fields) a missing or non-coercible geometry value
is never replaced by an invented number — it either derives or raises —
while missing stellar fields silently default.  The original claim's
"in every code path" fails for the batch mapper `map_row_to_features`,
which silently defaults geometry fields to 0.0 (see the accompanying
counterexample). -/
theorem C2_safe_float_two_tier_defaults (row : Row) (val : Cell) (field : String) :
    (field = "orbital_period" ∨ field = "transit_duration" ∨ field = "transit_depth" →
      (isMissingCell val = true → derivationGivesNone row field →
        safe_float row val field Option.none =
          Except.error (SFError.missingValue field (jsonSafeRow row))) ∧
      (isMissingCell val = false → coerceFloat val = Option.none →
        safe_float row val field Option.none =
          Except.error (SFError.invalidNumber field (jsonSafeCell val) (jsonSafeRow row)))) ∧
    (isMissingCell val = true →
      safe_float row val "stellar_mass" (some 1) = Except.ok (RVal.num ((1 : ℚ) : ℝ)) ∧
      safe_float row val "stellar_temperature" (some 5778) =
        Except.ok (RVal.num ((5778 : ℚ) : ℝ))) := by
  refine ⟨fun _ => ⟨?_, ?_⟩, fun h => ⟨?_, ?_⟩⟩
  · intro h hder
    exact safe_float_missing_error row val field h hder
  · intro h hv
    exact safe_float_present_invalid row val field Option.none h hv
  · exact safe_float_missing_default row val "stellar_mass" h
      ⟨fun hf => absurd hf (by decide), fun hf => absurd hf (by decide)⟩ 1
  · exact safe_float_missing_default row val "stellar_temperature" h
      ⟨fun hf => absurd hf (by decide), fun hf => absurd hf (by decide)⟩ 5778

/-- Counterexample to C2 as stated: in the batch path, a present but
non-coercible `orbital_period` (and entirely absent duration/depth
columns) is silently replaced by the 0.0 default of `get_val` — no
derivation, no error — while the stellar fields take their 1.0/5778.0
defaults. -/
theorem C2_batch_mapper_silently_defaults :
    map_row_to_features [("orbital_period", Cell.str "not-a-number")] =
      { orbital_period := PyNum.num 0, transit_duration := PyNum.num 0,
        transit_depth := PyNum.num 0, stellar_radius := PyNum.num 0,
        stellar_mass := PyNum.num 1, stellar_temperature := PyNum.num 5778 } := by
  decide

/-- Witness for C2: a missing geometry field with no derivation input
raises `missing_value`; a missing stellar mass silently becomes 1.0. -/
theorem C2_safe_float_two_tier_defaults_witness :
    safe_float [] Cell.nan "transit_depth" Option.none =
      Except.error (SFError.missingValue "transit_depth" []) ∧
    safe_float [] Cell.nan "stellar_mass" (some 1) =
      Except.ok (RVal.num ((1 : ℚ) : ℝ)) :=
  ⟨((C2_safe_float_two_tier_defaults [] Cell.nan "transit_depth").1
      (Or.inr (Or.inr rfl))).1 (by decide)
      ⟨fun _ => by decide, fun hf => absurd hf (by decide)⟩,
   ((C2_safe_float_two_tier_defaults [] Cell.nan "stellar_mass").2 (by decide)).1⟩

/-- Claim C4 (corrected): in the batch mapper `map_row_to_features` a
mapped transit depth greater than 1.0 is divided by 1e6 exactly once and
a depth at most 1.0 is left untouched; the Kepler-style scenario row
`koi_period=12.3, koi_duration=2.5, koi_depth=1500, koi_srad=0.95` maps
to the feature vector `{12.3, 2.5, 0.0015, 0.95}` (plus the stellar
defaults).  The single-row upload path applies no such conversion — see
the accompanying counterexample. -/
theorem C4_ppm_divided_once_in_batch_mapper :
    (∀ (row : Row) (d : ℚ), rawDepthVal row = PyNum.num d → 1 < d →
       (map_row_to_features row).transit_depth = PyNum.num (d / 1000000)) ∧
    (∀ (row : Row) (d : ℚ), rawDepthVal row = PyNum.num d → d ≤ 1 →
       (map_row_to_features row).transit_depth = PyNum.num d) ∧
    map_row_to_features
        [("koi_period", Cell.num (mkRat 123 10)), ("koi_duration", Cell.num (mkRat 5 2)),
         ("koi_depth", Cell.num 1500), ("koi_srad", Cell.num (mkRat 19 20))] =
      { orbital_period := PyNum.num (mkRat 123 10), transit_duration := PyNum.num (mkRat 5 2),
        transit_depth := PyNum.num (mkRat 3 2000), stellar_radius := PyNum.num (mkRat 19 20),
        stellar_mass := PyNum.num 1, stellar_temperature := PyNum.num 5778 } ∧
    (mkRat 123 10 : ℚ) = 12.3 ∧ (mkRat 5 2 : ℚ) = 2.5 ∧
    (mkRat 3 2000 : ℚ) = 0.0015 ∧ (mkRat 19 20 : ℚ) = 0.95 := by
  refine ⟨?_, ?_, by decide, by norm_num [Rat.mkRat_eq_div], by norm_num [Rat.mkRat_eq_div],
    by norm_num [Rat.mkRat_eq_div], by norm_num [Rat.mkRat_eq_div]⟩
  · intro row d hd h1
    simp only [map_row_to_features, hd, ppmAdjust, if_pos h1, qDiv_eq]
  · intro row d hd h1
    simp only [map_row_to_features, hd, ppmAdjust, if_neg (not_lt.mpr h1)]

/-- Witness for C4 at the scenario row: the raw mapped depth is 1500,
which exceeds 1.0 and is divided by 1e6 exactly once. -/
theorem C4_ppm_divided_once_in_batch_mapper_witness :
    rawDepthVal
        [("koi_period", Cell.num (mkRat 123 10)), ("koi_duration", Cell.num (mkRat 5 2)),
         ("koi_depth", Cell.num 1500), ("koi_srad", Cell.num (mkRat 19 20))] =
      PyNum.num 1500 ∧
    (1 : ℚ) < 1500 ∧
    (map_row_to_features
        [("koi_period", Cell.num (mkRat 123 10)), ("koi_duration", Cell.num (mkRat 5 2)),
         ("koi_depth", Cell.num 1500), ("koi_srad", Cell.num (mkRat 19 20))]).transit_depth =
      PyNum.num ((1500 : ℚ) / 1000000) :=
  ⟨by decide, by decide,
   C4_ppm_divided_once_in_batch_mapper.1 _ 1500 (by decide) (by decide)⟩

set_option maxRecDepth 8192 in
/-- Counterexample to C4 as stated: the single-row upload path applies no
ppm conversion anywhere.  The Kepler-style scenario file itself is
alias-renamed to the four canonical columns, classified `kepler`, and
then rejected by the required-columns gate with a `missing_columns`
error, so it yields no feature vector at all on this path; a Kepler-style
file that does pass the gate reaches the prediction-stage request with
its transit depth of 1500 unconverted — zero ppm divisions, where the
claim demands exactly one before prediction. -/
theorem C4_upload_path_applies_no_ppm_conversion :
    applyRename (build_rename_map ["koi_period", "koi_duration", "koi_depth", "koi_srad"])
        ["koi_period", "koi_duration", "koi_depth", "koi_srad"] =
      ["orbital_period", "transit_duration", "transit_depth", "stellar_radius"] ∧
    validate_and_build_request
        [("orbital_period", Cell.num (mkRat 123 10)), ("transit_duration", Cell.num (mkRat 5 2)),
         ("transit_depth", Cell.num 1500), ("stellar_radius", Cell.num (mkRat 19 20))] =
      UploadOutcome.missingColumns
        ["teq", "logg", "impact_parameter", "insolation", "snr", "period_duration_ratio",
         "transit_snr", "depth_duration_ratio", "radius_ratio"] "kepler" ∧
    validate_and_build_request
        [("orbital_period", Cell.num (mkRat 123 10)), ("transit_duration", Cell.num (mkRat 5 2)),
         ("transit_depth", Cell.num 1500), ("stellar_radius", Cell.num (mkRat 19 20)),
         ("teq", Cell.num 300), ("logg", Cell.num (mkRat 44 10)),
         ("impact_parameter", Cell.num (mkRat 1 10)), ("insolation", Cell.num 1200),
         ("snr", Cell.num 15), ("period_duration_ratio", Cell.num 5),
         ("transit_snr", Cell.num 12), ("depth_duration_ratio", Cell.num 600),
         ("radius_ratio", Cell.num 1)] =
      UploadOutcome.request
        { orbital_period := RVal.num ((mkRat 123 10 : ℚ) : ℝ)
          transit_duration := some (RVal.num ((mkRat 5 2 : ℚ) : ℝ))
          transit_depth := some (RVal.num ((1500 : ℚ) : ℝ))
          stellar_radius := RVal.num ((mkRat 19 20 : ℚ) : ℝ)
          stellar_mass := some (RVal.num ((1 : ℚ) : ℝ))
          stellar_temperature := some (RVal.num ((5778 : ℚ) : ℝ)) } ∧
    ((1500 : ℚ) : ℝ) ≠ ((mkRat 3 2000 : ℚ) : ℝ) := by
  refine ⟨by decide, rfl, rfl, ?_⟩
  intro h
  exact absurd (Rat.cast_injective h) (by decide)

/-- Numeric bounds for the Kepler semi-major-axis estimate at a 10-day
period: `(10/365.25)^(2/3)` lies strictly between 0.0907 and 0.0909 AU. -/
theorem keplerA10_bounds :
    (0.0907 : ℝ) < keplerSemiMajorAxis 10 ∧ keplerSemiMajorAxis 10 < 0.0909 := by
  have hx : (0 : ℝ) < ((10 : ℚ) : ℝ) / 365.25 := by norm_num
  have key : (keplerSemiMajorAxis 10) ^ (3 : ℕ) = (((10 : ℚ) : ℝ) / 365.25) ^ (2 : ℕ) := by
    rw [keplerSemiMajorAxis, ← Real.rpow_natCast ((((10 : ℚ) : ℝ) / 365.25) ^ ((2 : ℝ) / 3)) 3,
      ← Real.rpow_mul hx.le]
    norm_num
  have hnn : (0 : ℝ) ≤ keplerSemiMajorAxis 10 := Real.rpow_nonneg hx.le _
  constructor
  · refine lt_of_pow_lt_pow_left₀ 3 hnn ?_
    rw [key]
    norm_num
  · refine lt_of_pow_lt_pow_left₀ 3 (by norm_num : (0 : ℝ) ≤ 0.0909) ?_
    rw [key]
    norm_num

/-- Claim C6 (corrected): the transit-duration derivation computes
`(P/pi) * (Rs * 0.00465047 / a) * 24` hours, with `a` the supplied
semi-major-axis column when it is a usable non-zero number and otherwise
the Kepler estimate `(P/365.25)^(2/3)` AU; on the scenario row
`pl_rade=1.5, st_rad=1.0, pl_orbper=10.0` the derived depth is
0.0001885815... (approximately 0.000188, as the specification says) but
the fallback semi-major axis is approximately 0.0908 AU — not the 0.0738
the original claim states. -/
theorem C6_duration_derivation_formula :
    (∀ (r : Row) (P Rs : ℚ), durationPeriod r = some P → durationStellar r = some Rs →
       Rs ≠ 0 →
       ((durationSma r = Option.none ∨ durationSma r = some Option.none ∨
           durationSma r = some (some 0)) → 0 < P →
         compute_transit_duration_from_row r =
           some (durationFormula P Rs (keplerSemiMajorAxis P))) ∧
       (∀ a : ℚ, durationSma r = some (some a) → a ≠ 0 →
         compute_transit_duration_from_row r =
           some (durationFormula P Rs ((a : ℚ) : ℝ)))) ∧
    compute_transit_depth_from_row
        [("pl_rade", Cell.num (mkRat 3 2)), ("st_rad", Cell.num 1),
         ("pl_orbper", Cell.num 10)] =
      some (mkRat 18858155625 100000000000000) ∧
    ((0.000188 : ℚ) < mkRat 18858155625 100000000000000 ∧
      (mkRat 18858155625 100000000000000 : ℚ) < 0.000189) ∧
    compute_transit_duration_from_row
        [("pl_rade", Cell.num (mkRat 3 2)), ("st_rad", Cell.num 1),
         ("pl_orbper", Cell.num 10)] =
      some (durationFormula 10 1 (keplerSemiMajorAxis 10)) ∧
    ((0.0907 : ℝ) < keplerSemiMajorAxis 10 ∧ keplerSemiMajorAxis 10 < 0.0909) := by
  refine ⟨?_, by decide, by norm_num [Rat.mkRat_eq_div], rfl, keplerA10_bounds⟩
  intro r P Rs hP hRs hRs0
  constructor
  · intro hsma hp
    have hest : durationEstimate P Rs =
        some (durationFormula P Rs (keplerSemiMajorAxis P)) := by
      simp only [durationEstimate, if_neg (not_le.mpr hp)]
    rcases hsma with h | h | h
    · simp only [compute_transit_duration_from_row, hP, hRs, if_neg hRs0, h, hest]
    · simp only [compute_transit_duration_from_row, hP, hRs, if_neg hRs0, h, hest]
    · simp only [compute_transit_duration_from_row, hP, hRs, if_neg hRs0, h, hest]
      simp
  · intro a ha ha0
    simp only [compute_transit_duration_from_row, hP, hRs, if_neg hRs0, ha, if_neg ha0]

/-- Witness for C6 with a supplied non-zero semi-major-axis column. -/
theorem C6_duration_derivation_formula_witness :
    durationPeriod
        [("pl_orbper", Cell.num 10), ("st_rad", Cell.num 1),
         ("pl_orbsmax", Cell.num (mkRat 1 10))] = some 10 ∧
    durationStellar
        [("pl_orbper", Cell.num 10), ("st_rad", Cell.num 1),
         ("pl_orbsmax", Cell.num (mkRat 1 10))] = some 1 ∧
    durationSma
        [("pl_orbper", Cell.num 10), ("st_rad", Cell.num 1),
         ("pl_orbsmax", Cell.num (mkRat 1 10))] = some (some (mkRat 1 10)) ∧
    compute_transit_duration_from_row
        [("pl_orbper", Cell.num 10), ("st_rad", Cell.num 1),
         ("pl_orbsmax", Cell.num (mkRat 1 10))] =
      some (durationFormula 10 1 ((mkRat 1 10 : ℚ) : ℝ)) :=
  ⟨by decide, by decide, by decide,
   ((C6_duration_derivation_formula.1
       [("pl_orbper", Cell.num 10), ("st_rad", Cell.num 1),
        ("pl_orbsmax", Cell.num (mkRat 1 10))] 10 1
       (by decide) (by decide) (by decide)).2 (mkRat 1 10) (by decide) (by decide))⟩

/-- Counterexample to C6 as stated: the semi-major-axis fallback at a
10-day period differs from the claimed 0.0738 AU by more than 0.01 AU
(it is approximately 0.0908 AU). -/
theorem C6_counterexample_scenario_axis_value :
    (1 : ℝ) / 100 < |keplerSemiMajorAxis 10 - 0.0738| := by
  have h := keplerA10_bounds
  have hle : (0.0907 : ℝ) - 0.0738 ≤ |keplerSemiMajorAxis 10 - 0.0738| := by
    calc (0.0907 : ℝ) - 0.0738 ≤ keplerSemiMajorAxis 10 - 0.0738 := by linarith [h.1]
      _ ≤ |keplerSemiMajorAxis 10 - 0.0738| := le_abs_self _
  linarith

/-! ### Substring containment over the space-joined column string
(for the schema classifier claim) -/

/-- The predicate `containsSeg` detects exactly the segment decompositions. -/
theorem containsSeg_iff (p s : List Char) :
    containsSeg p s = true ↔ ∃ l r, s = l ++ p ++ r := by
  unfold containsSeg
  rw [List.any_eq_true]
  constructor
  · rintro ⟨i, _, htake⟩
    rw [beq_iff_eq] at htake
    refine ⟨s.take i, (s.drop i).drop p.length, ?_⟩
    calc s = s.take i ++ s.drop i := (List.take_append_drop i s).symm
      _ = s.take i ++ ((s.drop i).take p.length ++ (s.drop i).drop p.length) :=
          congrArg (fun t => s.take i ++ t) (List.take_append_drop p.length (s.drop i)).symm
      _ = s.take i ++ p ++ (s.drop i).drop p.length := by
          rw [htake, ← List.append_assoc]
  · rintro ⟨l, r, rfl⟩
    refine ⟨l.length, ?_, ?_⟩
    · rw [List.mem_range]
      simp [List.length_append]
      omega
    · rw [beq_iff_eq, List.append_assoc, List.drop_left, List.take_left]

/-- Splitting containment across a separator character that does not
occur in the pattern: the pattern lies entirely left or entirely right
of the separator. -/
theorem segIn_append_cons_iff (c : Char) (p a b : List Char) (hc : c ∉ p) :
    (∃ l r, a ++ c :: b = l ++ p ++ r) ↔
      (∃ l r, a = l ++ p ++ r) ∨ (∃ l r, b = l ++ p ++ r) := by
  constructor
  · rintro ⟨l, r, heq⟩
    rcases Nat.lt_or_ge a.length l.length with hcase | hcase
    · right
      rw [List.append_assoc] at heq
      have h1 : (a ++ c :: b).drop (a.length + 1) = b := by
        rw [List.drop_append_eq_append_drop, List.drop_eq_nil_of_le (by omega),
          show a.length + 1 - a.length = 1 by omega]
        simp
      have h2 : (l ++ (p ++ r)).drop (a.length + 1) =
          l.drop (a.length + 1) ++ (p ++ r) := by
        rw [List.drop_append_eq_append_drop, show a.length + 1 - l.length = 0 by omega]
        simp
      refine ⟨l.drop (a.length + 1), r, ?_⟩
      calc b = (a ++ c :: b).drop (a.length + 1) := h1.symm
        _ = (l ++ (p ++ r)).drop (a.length + 1) := by rw [heq]
        _ = l.drop (a.length + 1) ++ (p ++ r) := h2
        _ = l.drop (a.length + 1) ++ p ++ r := (List.append_assoc _ _ _).symm
    · rcases Nat.lt_or_ge a.length (l.length + p.length) with hmid | hbig
      · exfalso
        have e1 : (a ++ c :: b).get? a.length = some c := by
          rw [List.get?_append_right (le_refl a.length)]
          simp
        rw [heq] at e1
        rw [List.get?_append (by simp only [List.length_append]; omega)] at e1
        rw [List.get?_append_right (by omega : l.length ≤ a.length)] at e1
        exact hc (List.get?_mem e1)
      · left
        have h1 : (a ++ c :: b).take (l.length + p.length) = a.take (l.length + p.length) := by
          rw [List.take_append_eq_append_take,
            show l.length + p.length - a.length = 0 by omega]
          simp
        have h2 : (l ++ p ++ r).take (l.length + p.length) = l ++ p := by
          rw [show l.length + p.length = (l ++ p).length by simp [List.length_append],
            List.take_left]
        have ha : a.take (l.length + p.length) = l ++ p := by
          rw [← h1, heq, h2]
        refine ⟨l, a.drop (l.length + p.length), ?_⟩
        calc a = a.take (l.length + p.length) ++ a.drop (l.length + p.length) :=
            (List.take_append_drop _ _).symm
          _ = l ++ p ++ a.drop (l.length + p.length) := by rw [ha]
  · rintro (⟨l, r, rfl⟩ | ⟨l, r, rfl⟩)
    · exact ⟨l, r ++ c :: b, by simp [List.append_assoc]⟩
    · exact ⟨a ++ c :: l, r, by simp [List.append_assoc]⟩

/-- A non-empty pattern is not contained in the empty character list. -/
theorem containsSeg_nil (p : List Char) (hne : p ≠ []) : containsSeg p [] = false := by
  rw [Bool.eq_false_iff]
  intro h
  rcases (containsSeg_iff p []).mp h with ⟨l, r, hlr⟩
  have hl := congrArg List.length hlr
  simp [List.length_append] at hl
  exact hne (List.length_eq_zero.mp (by omega))

/-- Substring containment in the space-joined lower-cased column string
is exactly containment in some single column, for any space-free
non-empty pattern.  This is what makes `detect_model_type` a function of
the column set. -/
theorem strContains_columnsStr (pat : String) (hnb : ' ' ∉ pat.data)
    (hne : pat.data ≠ []) :
    ∀ cols : List String,
      strContains (columnsStr cols) pat =
        cols.any (fun c => strContains (lowerStr c) pat)
  | [] => by
      simp only [columnsStr, List.any_nil]
      exact containsSeg_nil pat.data hne
  | [c] => by
      simp only [columnsStr, List.any_cons, List.any_nil, Bool.or_false]
  | c :: c' :: rest => by
      have ih := strContains_columnsStr pat hnb hne (c' :: rest)
      have hdata : (columnsStr (c :: c' :: rest)).data =
          (lowerStr c).data ++ ' ' :: (columnsStr (c' :: rest)).data := by
        show (lowerStr c ++ " " ++ columnsStr (c' :: rest)).data = _
        rw [String.data_append, String.data_append, List.append_assoc]
        rfl
      have lhs_iff : strContains (columnsStr (c :: c' :: rest)) pat = true ↔
          strContains (lowerStr c) pat = true ∨
            strContains (columnsStr (c' :: rest)) pat = true := by
        unfold strContains
        rw [hdata, containsSeg_iff, containsSeg_iff, containsSeg_iff]
        exact segIn_append_cons_iff ' ' pat.data _ _ hnb
      have hbool : ∀ b1 b2 b3 : Bool,
          (b1 = true ↔ b2 = true ∨ b3 = true) → b1 = (b2 || b3) := by decide
      rw [List.any_cons, ← ih]
      exact hbool _ _ _ lhs_iff

/-- The classifier `detect_model_type` rewritten over per-column marker containment. -/
theorem detect_model_type_marker_form (cols : List String) :
    detect_model_type cols =
      if (anyColContains cols "v_mag" || anyColContains cols "star_mass")
          && !(anyColContains cols "tess_mag") then "k2"
      else if anyColContains cols "tess_mag" then "tess"
      else if (anyColContains cols "duration" || anyColContains cols "impact_parameter"
            || anyColContains cols "snr")
          && !(anyColContains cols "v_mag") && !(anyColContains cols "tess_mag") then "kepler"
      else "kepler" := by
  unfold detect_model_type anyColContains
  simp only [List.any_cons, List.any_nil, Bool.or_false]
  rw [strContains_columnsStr "v_mag" (by decide) (by decide) cols,
    strContains_columnsStr "star_mass" (by decide) (by decide) cols,
    strContains_columnsStr "tess_mag" (by decide) (by decide) cols,
    strContains_columnsStr "duration" (by decide) (by decide) cols,
    strContains_columnsStr "impact_parameter" (by decide) (by decide) cols,
    strContains_columnsStr "snr" (by decide) (by decide) cols]
  rw [Bool.or_assoc]

/-- Marker containment only depends on the multiset of columns. -/
theorem anyColContains_perm {cols1 cols2 : List String} (h : cols1.Perm cols2)
    (pat : String) : anyColContains cols1 pat = anyColContains cols2 pat := by
  unfold anyColContains
  rw [Bool.eq_iff_iff]
  simp only [List.any_eq_true]
  constructor
  · rintro ⟨x, hx, hfx⟩
    exact ⟨x, h.mem_iff.mp hx, hfx⟩
  · rintro ⟨x, hx, hfx⟩
    exact ⟨x, h.mem_iff.mpr hx, hfx⟩

/-- The csv-mapper mission detector also only depends on the column
multiset (it works on exact membership in the lowered column set). -/
theorem detect_mission_type_perm {cols1 cols2 : List String} (h : cols1.Perm cols2) :
    detect_mission_type cols1 = detect_mission_type cols2 := by
  unfold detect_mission_type
  have hm : ∀ x : String, (x ∈ cols1.map lowerStr) ↔ (x ∈ cols2.map lowerStr) :=
    fun x => (h.map lowerStr).mem_iff
  simp only [hm]

/-- Claim C9 (confirmed): schema detection depends only on the set of
column names (row contents never enter; column order is irrelevant), and
`detect_model_type` follows the fixed priority K2-markers-without-TESS,
then the TESS marker, then Kepler markers with the K2/TESS markers
absent, else the Kepler default — so a file carrying a schema's
exclusive marker set is classified as that schema. -/
theorem C9_schema_detection_set_based_priority (cols1 cols2 : List String) :
    (cols1.Perm cols2 →
       detect_model_type cols1 = detect_model_type cols2 ∧
       detect_mission_type cols1 = detect_mission_type cols2) ∧
    ((anyColContains cols1 "v_mag" = true ∨ anyColContains cols1 "star_mass" = true) →
       anyColContains cols1 "tess_mag" = false → detect_model_type cols1 = "k2") ∧
    (anyColContains cols1 "tess_mag" = true → detect_model_type cols1 = "tess") ∧
    ((anyColContains cols1 "duration" = true ∨ anyColContains cols1 "impact_parameter" = true ∨
        anyColContains cols1 "snr" = true) →
       anyColContains cols1 "v_mag" = false → anyColContains cols1 "star_mass" = false →
       anyColContains cols1 "tess_mag" = false → detect_model_type cols1 = "kepler") ∧
    (anyColContains cols1 "v_mag" = false → anyColContains cols1 "star_mass" = false →
       anyColContains cols1 "tess_mag" = false → detect_model_type cols1 = "kepler") := by
  refine ⟨?_, ?_, ?_, ?_, ?_⟩
  · intro h
    refine ⟨?_, detect_mission_type_perm h⟩
    rw [detect_model_type_marker_form cols1, detect_model_type_marker_form cols2,
      anyColContains_perm h "v_mag", anyColContains_perm h "star_mass",
      anyColContains_perm h "tess_mag", anyColContains_perm h "duration",
      anyColContains_perm h "impact_parameter", anyColContains_perm h "snr"]
  · intro h1 h2
    rw [detect_model_type_marker_form cols1]
    rcases h1 with h | h <;> simp [h, h2]
  · intro h1
    rw [detect_model_type_marker_form cols1]
    simp [h1]
  · intro h1 h2 h3 h4
    rw [detect_model_type_marker_form cols1]
    rcases h1 with h | h | h <;> simp [h, h2, h3, h4]
  · intro h1 h2 h3
    rw [detect_model_type_marker_form cols1]
    simp [h1, h2, h3]

/-- Witness for C9: a transposition leaves both classifiers unchanged,
and each exclusive marker set picks its schema. -/
theorem C9_schema_detection_set_based_priority_witness :
    detect_model_type ["tess_mag", "v_mag"] = detect_model_type ["v_mag", "tess_mag"] ∧
    detect_mission_type ["tess_mag", "v_mag"] = detect_mission_type ["v_mag", "tess_mag"] ∧
    detect_model_type ["star_mass", "koi_period"] = "k2" ∧
    detect_model_type ["colx", "tess_mag"] = "tess" ∧
    detect_model_type ["transit_duration", "snr"] = "kepler" :=
  ⟨((C9_schema_detection_set_based_priority ["tess_mag", "v_mag"] ["v_mag", "tess_mag"]).1
      (List.Perm.swap "v_mag" "tess_mag" [])).1,
   ((C9_schema_detection_set_based_priority ["tess_mag", "v_mag"] ["v_mag", "tess_mag"]).1
      (List.Perm.swap "v_mag" "tess_mag" [])).2,
   (C9_schema_detection_set_based_priority ["star_mass", "koi_period"] []).2.1
     (Or.inr (by decide)) (by decide),
   (C9_schema_detection_set_based_priority ["colx", "tess_mag"] []).2.2.1 (by decide),
   (C9_schema_detection_set_based_priority ["transit_duration", "snr"] []).2.2.2.1
     (Or.inl (by decide)) (by decide) (by decide) (by decide)⟩

end Exo
